import Mathlib

/-!
Shallow embedding of the metric-extraction and aggregation pipeline of
`plots_task2.py` and `SK/plot_exclusive.py`.

Numeric log values are modelled as exact rationals; the undefined /
infinite results of numpy float arithmetic are modelled by the `PFloat`
type below (`nan` for `np.nan` / Python `None` after `tofloat`, `inf`
and `ninf` for the two signed infinities).  The specific regular
expressions of the source are compiled by hand into positional matchers,
and `re.search` is modelled by trying every start position left to right
(`reSearch`).
-/

attribute [local semireducible] Rat.add Rat.mul Rat.inv Rat.sub

/-- Model of the numpy/pandas float values flowing through the pipeline:
an exact rational, or one of the IEEE special values produced by the code
(`np.nan`, `np.inf`, `-np.inf`). -/
inductive PFloat where
  | val (q : ℚ)
  | nan
  | inf
  | ninf
deriving DecidableEq, Repr

/-- Model of `pd.isna` on the values above: true exactly for `nan`
(pandas does not treat infinities as missing). -/
def PFloat.isNa : PFloat → Bool
  | .nan => true
  | _ => false

/-- Elementwise float division as performed by a pandas Series quotient
(`exclusive / noninclusive`): IEEE semantics, so a zero denominator gives
a signed infinity (or nan for 0/0) instead of raising, and nan
propagates. -/
def PFloat.div : PFloat → PFloat → PFloat
  | .nan, _ => .nan
  | _, .nan => .nan
  | .val a, .val b =>
      if b = 0 then (if a = 0 then .nan else if 0 < a then .inf else .ninf)
      else .val (a / b)
  | .val _, .inf => .val 0
  | .val _, .ninf => .val 0
  | .inf, .val b => if b < 0 then .ninf else .inf
  | .ninf, .val b => if b < 0 then .inf else .ninf
  | .inf, .inf => .nan
  | .inf, .ninf => .nan
  | .ninf, .inf => .nan
  | .ninf, .ninf => .nan

/-- Model of `speedup.replace([np.inf, -np.inf], np.nan)` applied
elementwise (line 177 of `plots_task2.py`). -/
def replaceInfWithNan : PFloat → PFloat
  | .inf => .nan
  | .ninf => .nan
  | v => v

/-- Value of a list of decimal digit characters. -/
def digitsToNat (ds : List Char) : ℕ :=
  ds.foldl (fun n c => 10 * n + (c.toNat - 48)) 0

/-- Exact value of a decimal literal with integer digits `d1` and
fractional digits `d2`, as produced by Python `float` on the captured
group (modelled exactly rather than as a binary float). -/
def decVal (d1 d2 : List Char) : ℚ :=
  (digitsToNat d1 : ℚ) + (digitsToNat d2 : ℚ) / (10 : ℚ) ^ d2.length

/-- Whitespace class of the regex `\s` (ASCII range, which is all the
log files contain). -/
def isSpaceC (c : Char) : Bool :=
  c == ' ' || c == '\t' || c == '\n' || c == '\r' || c == '\x0b' || c == '\x0c'

/-- Consume an exact literal prefix, returning the remainder on success. -/
def dropLit : List Char → List Char → Option (List Char)
  | [], cs => some cs
  | _ :: _, [] => none
  | l :: ls, c :: cs => if l == c then dropLit ls cs else none

/-- Does `sub` occur as a contiguous run inside `s`?  Model of the Python
substring test `sub in s`. -/
def listContains (sub : List Char) : List Char → Bool
  | [] => sub.isPrefixOf []
  | c :: cs => sub.isPrefixOf (c :: cs) || listContains sub cs

/-- Model of `sub in s` on strings. -/
def strContains (sub s : String) : Bool := listContains sub.data s.data

/-- Matcher at a fixed position for the capture group
`([0-9]*\.?[0-9]+)` of `plots_task2.py`: with backtracking resolved,
the group is maximal-digits `.` maximal-digits when a fractional part
follows, otherwise the maximal digit run alone (which must be
nonempty). -/
def matchNumGroup (cs : List Char) : Option ℚ :=
  let d1 := cs.takeWhile Char.isDigit
  match cs.drop d1.length with
  | '.' :: rest2 =>
    let d2 := rest2.takeWhile Char.isDigit
    if d2.isEmpty then (if d1.isEmpty then none else some (digitsToNat d1 : ℚ))
    else some (decVal d1 d2)
  | _ => if d1.isEmpty then none else some (digitsToNat d1 : ℚ)

/-- Matcher at a fixed position for the capture group `(\d+\.\d+)` of
`SK/plot_exclusive.py`: both digit runs are mandatory. -/
def matchDecGroup (cs : List Char) : Option ℚ :=
  let d1 := cs.takeWhile Char.isDigit
  if d1.isEmpty then none
  else match cs.drop d1.length with
    | '.' :: rest2 =>
      let d2 := rest2.takeWhile Char.isDigit
      if d2.isEmpty then none else some (decVal d1 d2)
    | _ => none

/-- Matcher at a fixed position for `cumulative IPC: (\d+\.\d+)`
(line 25 of `SK/plot_exclusive.py`). -/
def matchIpcFixed (cs : List Char) : Option ℚ :=
  match dropLit ("cumulative IPC: ".data) cs with
  | none => none
  | some r => matchDecGroup r

/-- Matcher at a fixed position for
`cumulative\s+IPC:\s*([0-9]*\.?[0-9]+)` (line 64 of `plots_task2.py`). -/
def matchPlainIpc (cs : List Char) : Option ℚ :=
  match dropLit ("cumulative".data) cs with
  | none => none
  | some r1 =>
    if (r1.takeWhile isSpaceC).isEmpty then none
    else match dropLit ("IPC:".data) (r1.dropWhile isSpaceC) with
      | none => none
      | some r3 => matchNumGroup (r3.dropWhile isSpaceC)

/-- Matcher at a fixed position for
`CPU\s*0\s+cumulative\s+IPC:\s*([0-9]*\.?[0-9]+)` (line 62 of
`plots_task2.py`). -/
def matchCpuIpc (cs : List Char) : Option ℚ :=
  match dropLit ("CPU".data) cs with
  | none => none
  | some r1 =>
    match dropLit ("0".data) (r1.dropWhile isSpaceC) with
    | none => none
    | some r2 =>
      if (r2.takeWhile isSpaceC).isEmpty then none
      else match dropLit ("cumulative".data) (r2.dropWhile isSpaceC) with
        | none => none
        | some r3 =>
          if (r3.takeWhile isSpaceC).isEmpty then none
          else match dropLit ("IPC:".data) (r3.dropWhile isSpaceC) with
            | none => none
            | some r4 => matchNumGroup (r4.dropWhile isSpaceC)

/-- Model of `re.search`: try the positional matcher at every start
position from left to right and return the first success. -/
def reSearch {α : Type} (m : List Char → Option α) : List Char → Option α
  | [] => m []
  | c :: cs =>
    match m (c :: cs) with
    | some v => some v
    | none => reSearch m cs

/-- Lazy bounded window `[\s\S]{0,200}?` followed by the matcher `m`:
try `m` after skipping `0, 1, ..., fuel` characters and return the first
success (minimal skip, as the lazy quantifier requires). -/
def lazyWindow {α : Type} (m : List Char → Option α) : ℕ → List Char → Option α
  | 0, cs => m cs
  | fuel + 1, cs =>
    match m cs with
    | some v => some v
    | none =>
      match cs with
      | [] => none
      | _ :: cs2 => lazyWindow m fuel cs2

/-- Matcher for the tail `MPKI:\s*([0-9]*\.?[0-9]+)` of the miss-rate
patterns of `plots_task2.py`. -/
def matchMpkiTail (cs : List Char) : Option ℚ :=
  match dropLit ("MPKI:".data) cs with
  | none => none
  | some r => matchNumGroup (r.dropWhile isSpaceC)

/-- Matcher at a fixed position for
`LVL(?:\s+TOTAL)?[\s\S]{0,200}?MPKI:\s*([0-9]*\.?[0-9]+)` where `LVL` is
the literal level name: the greedy optional `\s+TOTAL` is tried first and
the whole window is retried without it on failure (lines 66-70 of
`plots_task2.py`). -/
def matchLevelMpki (lvl : List Char) (cs : List Char) : Option ℚ :=
  match dropLit lvl cs with
  | none => none
  | some r1 =>
    let withTotal : Option ℚ :=
      if (r1.takeWhile isSpaceC).isEmpty then none
      else match dropLit ("TOTAL".data) (r1.dropWhile isSpaceC) with
        | none => none
        | some r2 => lazyWindow matchMpkiTail 200 r2
    match withTotal with
    | some v => some v
    | none => lazyWindow matchMpkiTail 200 r1

/-- Extraction of the `ipc` field of `parse_metrics_from_text`
(lines 62-64 of `plots_task2.py`): first occurrence of the CPU-qualified
pattern, else first occurrence of the plain pattern, else undefined. -/
def pm_ipc (text : List Char) : PFloat :=
  match reSearch matchCpuIpc text with
  | some q => PFloat.val q
  | none =>
    match reSearch matchPlainIpc text with
    | some q => PFloat.val q
    | none => PFloat.nan

/-- Option-to-PFloat conversion mirroring `tofloat` of
`parse_metrics_from_text` (`None` becomes `np.nan`). -/
def tofloat : Option ℚ → PFloat
  | some q => PFloat.val q
  | none => PFloat.nan

/-- Extraction of the `l1d_mpki` field (line 66 of `plots_task2.py`). -/
def pm_l1d (text : List Char) : PFloat :=
  tofloat (reSearch (matchLevelMpki ("L1D".data)) text)

/-- Extraction of the `l2_mpki` field with its newline-anchored fallback
pattern (lines 67-69 of `plots_task2.py`). -/
def pm_l2 (text : List Char) : PFloat :=
  match reSearch (matchLevelMpki ("L2C".data)) text with
  | some q => PFloat.val q
  | none => tofloat (reSearch (matchLevelMpki ("\nL2".data)) text)

/-- Extraction of the `llc_mpki` field (line 70 of `plots_task2.py`). -/
def pm_llc (text : List Char) : PFloat :=
  tofloat (reSearch (matchLevelMpki ("LLC".data)) text)

/-- Result record of `parse_metrics_from_text`. -/
structure Metrics where
  ipc : PFloat
  l1d_mpki : PFloat
  l2_mpki : PFloat
  llc_mpki : PFloat
deriving DecidableEq, Repr

/-- Model of `parse_metrics_from_text` (lines 56-83 of
`plots_task2.py`). -/
def parse_metrics_from_text (text : List Char) : Metrics :=
  { ipc := pm_ipc text
    l1d_mpki := pm_l1d text
    l2_mpki := pm_l2 text
    llc_mpki := pm_llc text }

/-- Per-line step of `parse_final_ipc` (lines 23-28 of
`SK/plot_exclusive.py`): a line yields a value when it contains the
substring `"cumulative IPC"` and the regex `cumulative IPC: (\d+\.\d+)`
matches somewhere in it. -/
def lineIpc (line : String) : Option ℚ :=
  if listContains ("cumulative IPC".data) line.data then
    reSearch matchIpcFixed line.data
  else none

/-- Core of `parse_final_ipc`: scan the lines backwards and return the
first line (i.e. the last line of the file) on which `lineIpc`
succeeds; the loop breaks only when the regex actually matched. -/
def parse_final_ipc_lines (lines : List String) : Option ℚ :=
  lines.reverse.findSome? lineIpc

/-- A file of the modelled file system: directory, file name, and content
as a list of lines (without their trailing newlines). -/
structure FSFile where
  dir : String
  name : String
  lines : List String
deriving DecidableEq, Repr

/-- Finite model of the file system the scripts run against. -/
structure FileSys where
  dirs : List String
  files : List FSFile
deriving DecidableEq, Repr

/-- Model of `os.path.isdir`. -/
def isdir (fs : FileSys) (d : String) : Bool := fs.dirs.contains d

/-- Model of `os.path.isfile` for a path `d/n`. -/
def isfile (fs : FileSys) (d n : String) : Bool :=
  fs.files.any (fun f => f.dir == d && f.name == n)

/-- Model of opening and reading a file: `none` when the file does not
exist (`FileNotFoundError`). -/
def readFile (fs : FileSys) (d n : String) : Option (List String) :=
  (fs.files.find? (fun f => f.dir == d && f.name == n)).map (fun f => f.lines)

/-- Full text of a file as read by `f.read()`. -/
def textOf (lines : List String) : List Char :=
  (String.intercalate "\n" lines).data

/-- Model of `parse_final_ipc` on a path (lines 7-33 of
`SK/plot_exclusive.py`): `None` both for a missing file and for a file
with no matching line. -/
def parse_final_ipc (fs : FileSys) (d n : String) : Option ℚ :=
  match readFile fs d n with
  | none => none
  | some lines => parse_final_ipc_lines lines

/-- Does a file name match the glob pattern `trace*.txt`? -/
def globMatchTrace (n : String) : Bool :=
  ("trace".data.isPrefixOf n.data) && (".txt".data.isSuffixOf n.data) && decide (9 ≤ n.length)

/-- Code-point lexicographic comparison on character lists: the string
order of Python. -/
def charListLt : List Char → List Char → Bool
  | _, [] => false
  | [], _ :: _ => true
  | a :: as, b :: bs =>
    if a.toNat < b.toNat then true
    else if b.toNat < a.toNat then false
    else charListLt as bs

/-- Total preorder used to model Python `sorted` on the glob results;
the paths share the directory prefix, so sorting the file names is the
same as sorting the paths. -/
def strLe (a b : String) : Prop := (charListLt a.data b.data || a == b) = true

instance : DecidableRel strLe := fun a b =>
  (inferInstance : Decidable ((charListLt a.data b.data || a == b) = true))

/-- Model of `sorted(glob.glob(os.path.join(directory, "trace*.txt")))`,
returning the matching file names in ascending order (empty when the
directory does not exist, as `glob` silently is). -/
def globTrace (fs : FileSys) (d : String) : List String :=
  List.insertionSort strLe
    ((fs.files.filter (fun f => f.dir == d && globMatchTrace f.name)).map (fun f => f.name))

/-- Matcher at a fixed position for `trace(\d+)\.txt` (lines 98 and 107
of `plots_task2.py`): literal `trace`, a nonempty digit run, then
literal `.txt`. -/
def matchTraceNum (cs : List Char) : Option ℕ :=
  match dropLit ("trace".data) cs with
  | none => none
  | some r1 =>
    let ds := r1.takeWhile Char.isDigit
    if ds.isEmpty then none
    else match dropLit (".txt".data) (r1.drop ds.length) with
      | none => none
      | some _ => some (digitsToNat ds)

/-- Trace number parsed from a file name, `none` when the pattern does
not occur. -/
def traceNoOf (n : String) : Option ℕ := reSearch matchTraceNum n.data

/-- One row of the collected data frame of `plots_task2.py`. -/
structure Row where
  trace : Option ℕ
  policy : String
  file : String
  ipc : PFloat
  l1d_mpki : PFloat
  l2_mpki : PFloat
  llc_mpki : PFloat
deriving DecidableEq, Repr

/-- Row built for one file, mirroring lines 97-103 and 106-113 of
`plots_task2.py` (`parse_file` returns `None` only for a missing file, in
which case all metrics become `np.nan`). -/
def rowOfFile (fs : FileSys) (directory label n : String) (t : Option ℕ) : Row :=
  let m : Metrics :=
    match readFile fs directory n with
    | some lines => parse_metrics_from_text (textOf lines)
    | none => ⟨PFloat.nan, PFloat.nan, PFloat.nan, PFloat.nan⟩
  { trace := t
    policy := label
    file := directory ++ "/" ++ n
    ipc := m.ipc
    l1d_mpki := m.l1d_mpki
    l2_mpki := m.l2_mpki
    llc_mpki := m.llc_mpki }

/-- The expected file names `trace1.txt`..`trace4.txt` (line 34 of
`plots_task2.py`). -/
def TRACE_FILENAMES : List String :=
  ["trace1.txt", "trace2.txt", "trace3.txt", "trace4.txt"]

/-- Configured directories of `plots_task2.py` (lines 31-32). -/
def DIR_NONINCLUSIVE : String := "outputs/no_prefetcher"

/-- Comparison directory of `plots_task2.py`. -/
def DIR_EXCLUSIVE : String := "outputs_latest/exclusive_no"

/-- Rows obtained from the explicit expected-filename list (lines 95-103
of `plots_task2.py`). -/
def expectedRows (fs : FileSys) (directory label : String) : List Row :=
  TRACE_FILENAMES.filterMap (fun n =>
    if isfile fs directory n then some (rowOfFile fs directory label n (traceNoOf n))
    else none)

/-- Rows obtained from the wildcard fallback scan (lines 105-113 of
`plots_task2.py`). -/
def globRows (fs : FileSys) (directory label : String) : List Row :=
  (globTrace fs directory).map (fun n => rowOfFile fs directory label n (traceNoOf n))

/-- Sort key of line 114 of `plots_task2.py`: a row whose trace number
could not be parsed sorts as 999. -/
def sortKey (r : Row) : ℕ := r.trace.getD 999

/-- Order on rows induced by the sort key. -/
def rowLe (a b : Row) : Prop := sortKey a ≤ sortKey b

instance : DecidableRel rowLe := fun a b => (inferInstance : Decidable (sortKey a ≤ sortKey b))

instance : IsTotal Row rowLe := ⟨fun a b => Nat.le_total (sortKey a) (sortKey b)⟩

instance : IsTrans Row rowLe := ⟨fun _ _ _ h1 h2 => Nat.le_trans h1 h2⟩

/-- Model of the stable sort of line 114 of `plots_task2.py`. -/
def sortRows (rows : List Row) : List Row := List.insertionSort rowLe rows

/-- Model of `collect_for_dir` (lines 92-115 of `plots_task2.py`). -/
def collect_for_dir (fs : FileSys) (directory label : String) : List Row :=
  sortRows
    (if (expectedRows fs directory label).isEmpty then globRows fs directory label
     else expectedRows fs directory label)

/-- The two row collections concatenated exactly as the data frame of
line 124 of `plots_task2.py` is built. -/
def t2rows (fs : FileSys) : List Row :=
  collect_for_dir fs DIR_EXCLUSIVE "exclusive" ++ collect_for_dir fs DIR_NONINCLUSIVE "noninclusive"

/-- Outcome of the module-level collection step of `plots_task2.py`. -/
inductive T2Outcome where
  | systemExit
  | proceeds (rows : List Row)
deriving DecidableEq, Repr

/-- Model of lines 117-124 of `plots_task2.py`: `SystemExit` exactly when
both directories produced zero rows, otherwise the run proceeds with the
concatenated rows. -/
def plots_task2_collect (fs : FileSys) : T2Outcome :=
  if (collect_for_dir fs DIR_EXCLUSIVE "exclusive").isEmpty
     && (collect_for_dir fs DIR_NONINCLUSIVE "noninclusive").isEmpty
  then T2Outcome.systemExit
  else T2Outcome.proceeds (t2rows fs)

/-- Order on pivot index entries: trace numbers ascending, with the
unparsed (`NA`) index sorted last, as `sort_index` places it. -/
def optNatLe (a b : Option ℕ) : Prop :=
  match a, b with
  | some x, some y => x ≤ y
  | some _, none => True
  | none, some _ => False
  | none, none => True

instance : DecidableRel optNatLe := fun a b => by
  cases a <;> cases b <;> simp [optNatLe] <;> infer_instance

instance : IsTotal (Option ℕ) optNatLe :=
  ⟨fun a b => by
    cases a with
    | none =>
      cases b with
      | none => exact Or.inl trivial
      | some y => exact Or.inr trivial
    | some x =>
      cases b with
      | none => exact Or.inl trivial
      | some y => exact Nat.le_total x y⟩

instance : IsTrans (Option ℕ) optNatLe :=
  ⟨fun a b c h1 h2 => by
    cases a with
    | none =>
      cases b with
      | none => exact h2
      | some y => exact False.elim h1
    | some x =>
      cases b with
      | none =>
        cases c with
        | none => exact trivial
        | some z => exact False.elim h2
      | some y =>
        cases c with
        | none => exact trivial
        | some z => exact Nat.le_trans h1 h2⟩

/-- Index of the pivoted table: the distinct trace values, sorted
ascending (model of `df.pivot(index='trace', ...).sort_index()`). -/
def pivotTraces (rows : List Row) : List (Option ℕ) :=
  List.insertionSort optNatLe ((rows.map (fun r => r.trace)).dedup)

/-- Cell of the pivoted table for a given trace index, policy column and
metric: `np.nan` when no row provides the combination (the outer-join
fill value of `pivot`). -/
def pivotVal (rows : List Row) (metric : Row → PFloat) (t : Option ℕ) (pol : String) : PFloat :=
  match rows.find? (fun r => r.trace == t && r.policy == pol) with
  | some r => metric r
  | none => PFloat.nan

/-- Speedup of one pivot row as the speedup chart computes it
(lines 176-177 of `plots_task2.py`): Series division followed by the
replacement of both infinities with `np.nan`. -/
def chart_speedup (e b : PFloat) : PFloat := replaceInfWithNan (PFloat.div e b)

/-- The value series of the speedup chart of `plot_ipc_speedup`. -/
def speedup_series (rows : List Row) : List PFloat :=
  (pivotTraces rows).map (fun t =>
    chart_speedup (pivotVal rows (fun r => r.ipc) t "exclusive")
      (pivotVal rows (fun r => r.ipc) t "noninclusive"))

/-- Speedup column of `build_summary_table` (line 241 of
`plots_task2.py`): a plain Series division with no infinity
replacement. -/
def summary_speedups (rows : List Row) : List PFloat :=
  (pivotTraces rows).map (fun t =>
    PFloat.div (pivotVal rows (fun r => r.ipc) t "exclusive")
      (pivotVal rows (fun r => r.ipc) t "noninclusive"))

/-- Truncated integer part of a nonnegative rational (its floor). -/
def ratTrunc (x : ℚ) : ℕ := x.num.toNat / x.den

/-- Round a nonnegative rational to the nearest integer, ties to even:
the rounding Python fixed-precision formatting performs. -/
def roundHalfEvenNN (x : ℚ) : ℕ :=
  let f := ratTrunc x
  let r := x - (f : ℚ)
  if r < 1 / 2 then f
  else if 1 / 2 < r then f + 1
  else if f % 2 = 0 then f else f + 1

/-- Left-pad a digit string with zeros to the given width. -/
def padZeros (n : ℕ) (s : String) : String :=
  String.mk (List.replicate (n - s.length) '0') ++ s

/-- Fixed-precision rendering of a nonnegative rational with `prec`
digits after the decimal point. -/
def fmtNN (prec : ℕ) (q : ℚ) : String :=
  let n := roundHalfEvenNN (q * (10 : ℚ) ^ prec)
  let ip := n / 10 ^ prec
  let fp := n % 10 ^ prec
  if prec == 0 then toString ip
  else toString ip ++ "." ++ padZeros prec (toString fp)

/-- Model of Python fixed-precision float formatting `f"{q:.{prec}f}"`
on an exact rational. -/
def fmtQ (prec : ℕ) (q : ℚ) : String :=
  if q < 0 then "-" ++ fmtNN prec (-q) else fmtNN prec q

/-- Fixed-precision formatting lifted to the float model
(`f"{inf:.3f}"` is `"inf"` in Python, and so on). -/
def PFloat.fmt (prec : ℕ) : PFloat → String
  | .val q => fmtQ prec q
  | .nan => "nan"
  | .inf => "inf"
  | .ninf => "-inf"

/-- Smallest exponent `k ≤ 17` with `den ∣ 10^k`, used by the default
`str` branch below. -/
def pow10Exp (den : ℕ) : Option ℕ :=
  (List.range 18).find? (fun k => 10 ^ k % den == 0)

/-- Model of the default branch `f"{v}"` of `format_val`.  In the source
this branch is reached only for the `Trace` column, never for a metric
float; it is modelled as the exact decimal expansion when one of at most
17 digits exists. -/
def PFloat.pyStr : PFloat → String
  | .nan => "nan"
  | .inf => "inf"
  | .ninf => "-inf"
  | .val q =>
    match pow10Exp q.den with
    | some 0 => toString q.num ++ ".0"
    | some k => fmtQ k q
    | none => fmtQ 17 q

/-- Model of `format_val` (lines 254-263 of `plots_task2.py`): the
placeholder for missing values, 3 decimals for IPC and speedup columns,
2 decimals for MPKI columns. -/
def format_val (col : String) (v : PFloat) : String :=
  if v.isNa then "-"
  else if strContains "ipc" col && !(strContains "speedup" col) then v.fmt 3
  else if strContains "speedup" col then v.fmt 3
  else if strContains "mpki" col then v.fmt 2
  else v.pyStr

/-- Bar annotations of the speedup chart (lines 186-191 of
`plots_task2.py`): `"-"` for an undefined speedup, else the value with 3
decimals. -/
def speedup_labels (rows : List Row) : List String :=
  (speedup_series rows).map (fun v => if v.isNa then "-" else v.fmt 3)

/-- Bar annotation of the side-by-side charts (lines 147-151 of
`plots_task2.py`): every finite bar is labelled with 2 decimals and a
`nan` bar receives no annotation at all (`none`). -/
def sbs_bar_label (h : PFloat) : Option String :=
  if h.isNa then none else some (h.fmt 2)

/-- Bar values of one side-by-side chart: the exclusive bars followed by
the noninclusive bars, one per pivot index entry. -/
def side_by_side_values (rows : List Row) (metric : Row → PFloat) : List PFloat :=
  (pivotTraces rows).map (fun t => pivotVal rows metric t "exclusive")
    ++ (pivotTraces rows).map (fun t => pivotVal rows metric t "noninclusive")

/-- Bar annotations of one side-by-side chart. -/
def side_by_side_labels (rows : List Row) (metric : Row → PFloat) : List (Option String) :=
  (side_by_side_values rows metric).map sbs_bar_label

/-- Directories of `generate_plot` (lines 41-42 of
`SK/plot_exclusive.py`). -/
def BASELINE_DIR : String := "outputs/exclusive_no"

/-- Comparison directory of `generate_plot`. -/
def EXCLUSIVE_DIR : String := "outputs/exclusive_offset_prefetcher"

/-- Model of `filename.replace('.txt', '')`: remove every occurrence of
`.txt`, scanning left to right. -/
def replaceTxt : List Char → List Char
  | '.' :: 't' :: 'x' :: 't' :: rest => replaceTxt rest
  | c :: rest => c :: replaceTxt rest
  | [] => []

/-- Trace label used as the dict key of `generate_plot`. -/
def stripTxt (n : String) : String := String.mk (replaceTxt n.data)

/-- Speedup of one zipped file pair (lines 72-80 of
`SK/plot_exclusive.py`): defined only when both IPC values were parsed
and the baseline is strictly positive. -/
def gp_pair_speedup (ipc_b ipc_e : Option ℚ) : Option ℚ :=
  match ipc_b, ipc_e with
  | some b, some e => if 0 < b then some (e / b) else none
  | _, _ => none

/-- Python dict insertion/update on an association list. -/
def dictUpsert (k : String) (v : ℚ) : List (String × ℚ) → List (String × ℚ)
  | [] => [(k, v)]
  | (k2, v2) :: rest => if k2 == k then (k, v) :: rest else (k2, v2) :: dictUpsert k v rest

/-- The `results` dict of `generate_plot` (lines 62-80 of
`SK/plot_exclusive.py`): the two sorted directory listings are zipped
POSITIONALLY, each prefetcher file being paired with the baseline file at
the same list position, whatever their trace numbers. -/
def gp_results (fs : FileSys) (pairs : List (String × String)) : List (String × ℚ) :=
  pairs.foldl (fun acc pb =>
    match gp_pair_speedup (parse_final_ipc fs BASELINE_DIR pb.2)
        (parse_final_ipc fs EXCLUSIVE_DIR pb.1) with
    | some s => dictUpsert (stripTxt pb.1) s acc
    | none => acc) []

/-- Outcome of `generate_plot`. -/
inductive GPOutcome where
  | baselineDirNotFound
  | exclusiveDirNotFound
  | noTraces
  | noValidPairs
  | plot (results : List (String × ℚ))
deriving DecidableEq, Repr

/-- Model of `generate_plot` (lines 35-127 of `SK/plot_exclusive.py`) up
to the data it draws: directory checks, wildcard scans, the positional
zip, and the per-pair speedups. -/
def generate_plot (fs : FileSys) : GPOutcome :=
  if !(isdir fs BASELINE_DIR) then GPOutcome.baselineDirNotFound
  else if !(isdir fs EXCLUSIVE_DIR) then GPOutcome.exclusiveDirNotFound
  else
    let trace_files := globTrace fs BASELINE_DIR
    let trace_files_prefetch := globTrace fs EXCLUSIVE_DIR
    if trace_files.isEmpty then GPOutcome.noTraces
    else
      let results := gp_results fs (trace_files_prefetch.zip trace_files)
      if results.isEmpty then GPOutcome.noValidPairs
      else GPOutcome.plot results

/-- Unfolding equation of the search at a failing head position. -/
theorem reSearch_cons_none {α : Type} (m : List Char → Option α) (c : Char) (cs : List Char)
    (h : m (c :: cs) = none) : reSearch m (c :: cs) = reSearch m cs := by
  simp [reSearch, h]

/-- Unfolding equation of the search at a succeeding head position. -/
theorem reSearch_cons_some {α : Type} (m : List Char → Option α) (c : Char) (cs : List Char)
    (v : α) (h : m (c :: cs) = some v) : reSearch m (c :: cs) = some v := by
  simp [reSearch, h]

/-- If the matcher succeeds on the suffix `rest` and fails on every
strictly longer suffix, the left-to-right search returns that success:
the search finds the FIRST matching position. -/
theorem reSearch_first {α : Type} (m : List Char → Option α) :
    ∀ (pre rest : List Char) (v : α), m rest = some v →
      (∀ t ∈ (pre ++ rest).tails, rest.length < t.length → m t = none) →
      reSearch m (pre ++ rest) = some v := by
  intro pre
  induction pre with
  | nil =>
    intro rest v hm _
    cases rest with
    | nil => simpa [reSearch] using hm
    | cons c cs => simp [reSearch, hm]
  | cons p ps ih =>
    intro rest v hm h
    have hself : m (p :: (ps ++ rest)) = none := by
      apply h (p :: (ps ++ rest)) ((List.mem_tails _ _).mpr List.suffix_rfl)
      simp [List.length_append]
      omega
    rw [List.cons_append, reSearch_cons_none m p (ps ++ rest) hself]
    exact ih rest v hm (fun t ht hl =>
      h t ((List.mem_tails _ _).mpr (((List.mem_tails _ _).mp ht).trans (List.suffix_cons p (ps ++ rest)))) hl)

/-- If the matcher fails at every suffix, the search fails. -/
theorem reSearch_none {α : Type} (m : List Char → Option α) :
    ∀ cs : List Char, (∀ t ∈ cs.tails, m t = none) → reSearch m cs = none := by
  intro cs
  induction cs with
  | nil => intro h; simpa [reSearch] using h [] (by simp)
  | cons c cs ih =>
    intro h
    have hself : m (c :: cs) = none := h _ ((List.mem_tails _ _).mpr List.suffix_rfl)
    rw [reSearch_cons_none m c cs hself]
    exact ih (fun t ht =>
      h t ((List.mem_tails _ _).mpr (((List.mem_tails _ _).mp ht).trans (List.suffix_cons c cs))))

/-- A block of elements on which the scan fails can be skipped. -/
theorem findSome?_append_of_none {α β : Type} (f : α → Option β) :
    ∀ (xs ys : List α), (∀ x ∈ xs, f x = none) →
      (xs ++ ys).findSome? f = ys.findSome? f := by
  intro xs ys
  induction xs with
  | nil => intro _; rfl
  | cons a as ih =>
    intro h
    have ha : f a = none := h a (by simp)
    simp only [List.cons_append, List.findSome?_cons, ha]
    exact ih (fun x hx => h x (by simp [hx]))

/-- Dividing by an undefined value yields an undefined value. -/
theorem PFloat.div_nan_right : ∀ e : PFloat, PFloat.div e PFloat.nan = PFloat.nan := by
  intro e; cases e <;> rfl

/-- An undefined baseline makes the chart speedup undefined. -/
theorem chart_speedup_nan_right : ∀ e : PFloat, chart_speedup e PFloat.nan = PFloat.nan := by
  intro e; cases e <;> rfl

/-- A zero baseline makes the chart speedup undefined (the infinity from
the division is replaced by nan). -/
theorem chart_speedup_zero_right : ∀ e : PFloat, chart_speedup e (PFloat.val 0) = PFloat.nan := by
  intro e
  cases e with
  | val a =>
    simp only [chart_speedup, PFloat.div, if_pos rfl]
    split_ifs <;> rfl
  | nan => rfl
  | inf => rfl
  | ninf => rfl

/-- Every collected row carries the policy label of its directory. -/
theorem mem_collect_policy (fs : FileSys) (d lbl : String) :
    ∀ r ∈ collect_for_dir fs d lbl, r.policy = lbl := by
  intro r hr
  rw [collect_for_dir, sortRows] at hr
  have hr2 := (List.perm_insertionSort rowLe _).mem_iff.mp hr
  by_cases hemp : (expectedRows fs d lbl).isEmpty
  · rw [if_pos hemp] at hr2
    rcases List.mem_map.mp hr2 with ⟨n, _, hn⟩
    rw [← hn]
    rfl
  · rw [if_neg hemp] at hr2
    rcases List.mem_filterMap.mp hr2 with ⟨n, _, hn⟩
    by_cases hf : isfile fs d n = true
    · rw [if_pos hf] at hn
      cases hn
      rfl
    · rw [if_neg hf] at hn
      cases hn

/-- A pivot cell of a policy column no row carries is the nan fill
value. -/
theorem pivotVal_policy_missing (rows : List Row) (metric : Row → PFloat) (t : Option ℕ)
    (pol : String) (h : ∀ r ∈ rows, (r.policy == pol) = false) :
    pivotVal rows metric t pol = PFloat.nan := by
  have hfind : rows.find? (fun r => r.trace == t && r.policy == pol) = none := by
    rw [List.find?_eq_none]
    intro r hr
    simp [h r hr]
  simp [pivotVal, hfind]

/-- No expected file name exists in the directory exactly when the
expected-filename pass collects nothing. -/
theorem expectedRows_eq_nil (fs : FileSys) (d lbl : String)
    (h : ∀ f ∈ TRACE_FILENAMES, isfile fs d f = false) :
    expectedRows fs d lbl = [] := by
  rw [expectedRows, List.filterMap_eq_nil_iff]
  intro n hn
  rw [if_neg]
  simp [h n hn]

/-- Fixed-precision rendering with a nonzero precision is never the
empty string. -/
theorem fmtNN_ne_empty (prec : ℕ) (q : ℚ) (h : prec ≠ 0) : fmtNN prec q ≠ "" := by
  have hb : (prec == 0) = false := Bool.eq_false_iff.mpr (fun hbe => h (eq_of_beq hbe))
  simp only [fmtNN, hb, Bool.false_eq_true, if_false]
  intro hEq
  have hlen := congrArg String.length hEq
  simp only [String.length_append] at hlen
  have h1 : (".".length) = 1 := rfl
  have h0 : ("".length) = 0 := rfl
  omega

/-- Fixed-precision rendering of a rational with a nonzero precision is
never the empty string. -/
theorem fmtQ_ne_empty (prec : ℕ) (q : ℚ) (h : prec ≠ 0) : fmtQ prec q ≠ "" := by
  rw [fmtQ]
  split_ifs
  · intro hEq
    have hlen := congrArg String.length hEq
    simp only [String.length_append] at hlen
    have h1 : ("-".length) = 1 := rfl
    have h0 : ("".length) = 0 := rfl
    have h2 := fmtNN_ne_empty prec (-q) h
    omega
  · exact fmtNN_ne_empty prec q h

/-- A speedup-chart annotation is never the empty string. -/
theorem speedup_label_ne_empty : ∀ v : PFloat, (if v.isNa then "-" else v.fmt 3) ≠ "" := by
  intro v
  cases v with
  | val q => simpa [PFloat.isNa, PFloat.fmt] using fmtQ_ne_empty 3 q (by omega)
  | nan => simp [PFloat.isNa]
  | inf => simp [PFloat.isNa, PFloat.fmt]
  | ninf => simp [PFloat.isNa, PFloat.fmt]

/-- C1 counterexample: on a log text with two cumulative-IPC records
(1.25 first, 1.5 last), the extractor of `plots_task2.py` returns the
value of the FIRST record, not the value 1.5 of the last occurrence. -/
theorem pm_ipc_first_not_last_cex :
    (parse_metrics_from_text (textOf ["cumulative IPC: 1.25", "cumulative IPC: 1.5"])).ipc
        = PFloat.val (5 / 4)
    ∧ (parse_metrics_from_text (textOf ["cumulative IPC: 1.25", "cumulative IPC: 1.5"])).ipc
        ≠ PFloat.val (3 / 2) := by
  constructor
  · decide
  · decide

/-- C1 (amended): `parse_final_ipc` returns the value of the LAST line
whose regex matches (no later line matching), while
`parse_metrics_from_text` returns the FIRST occurrence in the text: the
first match of the CPU-qualified pattern when that pattern occurs
anywhere, otherwise the first match of the plain pattern. -/
theorem ipc_extraction_order_characterization :
    (∀ (pre : List String) (l : String) (post : List String) (v : ℚ),
        lineIpc l = some v → (∀ l2 ∈ post, lineIpc l2 = none) →
        parse_final_ipc_lines (pre ++ l :: post) = some v)
    ∧ (∀ (pre rest : List Char) (v : ℚ),
        matchCpuIpc rest = some v →
        (∀ t ∈ (pre ++ rest).tails, rest.length < t.length → matchCpuIpc t = none) →
        pm_ipc (pre ++ rest) = PFloat.val v)
    ∧ (∀ (pre rest : List Char) (v : ℚ),
        matchPlainIpc rest = some v →
        (∀ t ∈ (pre ++ rest).tails, matchCpuIpc t = none) →
        (∀ t ∈ (pre ++ rest).tails, rest.length < t.length → matchPlainIpc t = none) →
        pm_ipc (pre ++ rest) = PFloat.val v) := by
  refine ⟨?_, ?_, ?_⟩
  · intro pre l post v hl hpost
    rw [parse_final_ipc_lines, List.reverse_append, List.reverse_cons, List.append_assoc,
      findSome?_append_of_none lineIpc post.reverse _ (fun x hx => hpost x (List.mem_reverse.mp hx)),
      List.singleton_append]
    simp [List.findSome?_cons, hl]
  · intro pre rest v hm h
    have hc := reSearch_first matchCpuIpc pre rest v hm h
    simp [pm_ipc, hc]
  · intro pre rest v hm hcpu hplain
    have hc : reSearch matchCpuIpc (pre ++ rest) = none := reSearch_none matchCpuIpc _ hcpu
    have hp := reSearch_first matchPlainIpc pre rest v hm hplain
    simp [pm_ipc, hc, hp]

/-- C1 witness: the order characterization applied at concrete logs. -/
theorem ipc_extraction_order_witness :
    parse_final_ipc_lines (["start"] ++ "cumulative IPC: 1.25" :: ["noise"]) = some (5 / 4)
    ∧ pm_ipc ("x ".data ++ "CPU 0 cumulative IPC: 2.5".data) = PFloat.val (5 / 2)
    ∧ pm_ipc ("ab".data ++ "cumulative IPC: 1.25".data) = PFloat.val (5 / 4) :=
  ⟨ipc_extraction_order_characterization.1 ["start"] "cumulative IPC: 1.25" ["noise"] (5 / 4)
      (by decide) (by decide),
   ipc_extraction_order_characterization.2.1 "x ".data "CPU 0 cumulative IPC: 2.5".data (5 / 2)
      (by decide) (by decide),
   ipc_extraction_order_characterization.2.2 "ab".data "cumulative IPC: 1.25".data (5 / 4)
      (by decide) (by decide) (by decide)⟩

/-- C9: a log text with no cumulative-IPC record yields the explicit
undefined marker from both extractors — `None` from `parse_final_ipc`
and `np.nan` from `parse_metrics_from_text` — and never the value
zero (no exception path exists in the model: both functions are
total). -/
theorem no_ipc_record_undefined :
    (∀ lines : List String,
        (∀ l ∈ lines, listContains ("cumulative IPC".data) l.data = false) →
        parse_final_ipc_lines lines = none)
    ∧ (∀ text : List Char,
        (∀ t ∈ text.tails, matchCpuIpc t = none) →
        (∀ t ∈ text.tails, matchPlainIpc t = none) →
        pm_ipc text = PFloat.nan ∧ pm_ipc text ≠ PFloat.val 0) := by
  constructor
  · intro lines h
    rw [parse_final_ipc_lines, List.findSome?_eq_none_iff]
    intro l hl
    simp [lineIpc, h l (List.mem_reverse.mp hl)]
  · intro text hcpu hplain
    have hc := reSearch_none matchCpuIpc text hcpu
    have hp := reSearch_none matchPlainIpc text hplain
    constructor
    · simp [pm_ipc, hc, hp]
    · simp [pm_ipc, hc, hp]

/-- C9 witness: a record-free log evaluated through the theorem. -/
theorem no_ipc_record_undefined_witness :
    parse_final_ipc_lines ["abc"] = none
    ∧ (pm_ipc ("abc".data) = PFloat.nan ∧ pm_ipc ("abc".data) ≠ PFloat.val 0) :=
  ⟨no_ipc_record_undefined.1 ["abc"] (by decide),
   no_ipc_record_undefined.2 ("abc".data) (by decide) (by decide)⟩

/-- C10 counterexample: the last line containing `"cumulative IPC"` has
no `\d+\.\d+` match, yet `parse_final_ipc` does NOT stop there — it
returns the earlier well-formed value 1.5 where the claim predicts
`None`. -/
theorem parse_final_ipc_skips_bad_line_cex :
    parse_final_ipc_lines ["cumulative IPC: 1.5", "cumulative IPC: 2"] = some (3 / 2)
    ∧ some ((3 : ℚ) / 2) ≠ (none : Option ℚ) := by
  constructor
  · decide
  · decide

/-- C10 (amended): a line that contains the substring but not the
decimal pattern is skipped rather than terminating the backward scan:
the result is decided by the remaining earlier lines. -/
theorem parse_final_ipc_continues_scan :
    ∀ (pre : List String) (bad : String) (post : List String),
      listContains ("cumulative IPC".data) bad.data = true →
      lineIpc bad = none →
      (∀ l2 ∈ post, lineIpc l2 = none) →
      parse_final_ipc_lines (pre ++ bad :: post) = parse_final_ipc_lines pre := by
  intro pre bad post _hsub hbad hpost
  rw [parse_final_ipc_lines, List.reverse_append, List.reverse_cons, List.append_assoc,
    findSome?_append_of_none lineIpc post.reverse _ (fun x hx => hpost x (List.mem_reverse.mp hx)),
    List.singleton_append]
  simp [List.findSome?_cons, hbad, parse_final_ipc_lines]

/-- C10 witness: the skipping behavior at the concrete two-line log. -/
theorem parse_final_ipc_continues_scan_witness :
    parse_final_ipc_lines (["cumulative IPC: 1.5"] ++ "cumulative IPC: 2" :: []) =
      parse_final_ipc_lines ["cumulative IPC: 1.5"] :=
  parse_final_ipc_continues_scan ["cumulative IPC: 1.5"] "cumulative IPC: 2" []
    (by decide) (by decide) (by decide)

/-- File system for the positional-zip evaluation: baseline has traces 1
and 3, the comparison side has traces 1, 2 and 3. -/
def fs2 : FileSys :=
  { dirs := [BASELINE_DIR, EXCLUSIVE_DIR]
    files :=
      [ ⟨BASELINE_DIR, "trace1.txt", ["cumulative IPC: 1.0"]⟩
      , ⟨BASELINE_DIR, "trace3.txt", ["cumulative IPC: 2.0"]⟩
      , ⟨EXCLUSIVE_DIR, "trace1.txt", ["cumulative IPC: 1.5"]⟩
      , ⟨EXCLUSIVE_DIR, "trace2.txt", ["cumulative IPC: 3.0"]⟩
      , ⟨EXCLUSIVE_DIR, "trace3.txt", ["cumulative IPC: 4.0"]⟩ ] }

/-- C2: evaluated where the baseline side lacks `trace2.txt`,
`generate_plot` pairs comparison `trace2` (IPC 3.0) with baseline
`trace3` (IPC 2.0) and emits no entry at all for trace 3, although that
trace is present on BOTH sides: the aggregation is a positional zip of
the two sorted listings, not an outer join by trace number. -/
theorem generate_plot_positional_zip_eval :
    generate_plot fs2 = GPOutcome.plot [("trace1", 3 / 2), ("trace2", 3 / 2)]
    ∧ ∀ p ∈ [("trace1", (3 : ℚ) / 2), ("trace2", (3 : ℚ) / 2)], p.1 ≠ "trace3" := by
  refine ⟨by decide, by decide⟩

/-- File system with a baseline IPC record of exactly zero. -/
def fs3 : FileSys :=
  { dirs := []
    files :=
      [ ⟨DIR_EXCLUSIVE, "trace1.txt", ["cumulative IPC: 1.5"]⟩
      , ⟨DIR_NONINCLUSIVE, "trace1.txt", ["cumulative IPC: 0.0"]⟩ ] }

/-- C3 counterexample: with a parsed baseline IPC of exactly zero and a
comparison IPC of 1.5, the summary-table speedup column holds positive
infinity — an infinite value where the claim requires an undefined
one. -/
theorem summary_speedup_inf_cex :
    summary_speedups (t2rows fs3) = [PFloat.inf]
    ∧ PFloat.inf ≠ PFloat.nan := by
  refine ⟨by decide, by decide⟩

/-- C3 (amended): the speedup chart (division then infinity replacement)
and `plot_exclusive` (explicit `> 0` guard) behave as the claim states,
but `build_summary_table` performs a bare Series division: a zero
baseline with a positive comparison IPC yields positive infinity, which
`format_val` renders as "inf". -/
theorem speedup_division_semantics :
    (∀ e : PFloat, chart_speedup e PFloat.nan = PFloat.nan)
    ∧ (∀ e : PFloat, chart_speedup e (PFloat.val 0) = PFloat.nan)
    ∧ (∀ a b : ℚ, b ≠ 0 → chart_speedup (PFloat.val a) (PFloat.val b) = PFloat.val (a / b))
    ∧ (∀ a : ℚ, 0 < a → PFloat.div (PFloat.val a) (PFloat.val 0) = PFloat.inf)
    ∧ format_val "speedup_ipc" PFloat.inf = "inf"
    ∧ (∀ e : Option ℚ, gp_pair_speedup none e = none)
    ∧ (∀ b : Option ℚ, gp_pair_speedup b none = none)
    ∧ (∀ b e : ℚ, ¬ 0 < b → gp_pair_speedup (some b) (some e) = none)
    ∧ (∀ b e : ℚ, 0 < b → gp_pair_speedup (some b) (some e) = some (e / b)) := by
  refine ⟨chart_speedup_nan_right, chart_speedup_zero_right, ?_, ?_, by decide, ?_, ?_, ?_, ?_⟩
  · intro a b hb
    simp [chart_speedup, PFloat.div, hb, replaceInfWithNan]
  · intro a ha
    simp [PFloat.div, ha, ha.ne']
  · intro e; cases e <;> rfl
  · intro b; cases b <;> rfl
  · intro b e hb; simp [gp_pair_speedup, hb]
  · intro b e hb; simp [gp_pair_speedup, hb]

/-- C3 witness: the division semantics at concrete operands. -/
theorem speedup_division_semantics_witness :
    chart_speedup (PFloat.val 3) (PFloat.val 2) = PFloat.val (3 / 2)
    ∧ PFloat.div (PFloat.val (3 / 2)) (PFloat.val 0) = PFloat.inf
    ∧ gp_pair_speedup (some 0) (some 3) = none
    ∧ gp_pair_speedup (some 2) (some 3) = some (3 / 2) :=
  ⟨speedup_division_semantics.2.2.1 3 2 (by decide),
   speedup_division_semantics.2.2.2.1 (3 / 2) (by decide),
   speedup_division_semantics.2.2.2.2.2.2.2.1 0 3 (by decide),
   speedup_division_semantics.2.2.2.2.2.2.2.2 2 3 (by decide)⟩

/-- The empty file system. -/
def fsEmpty : FileSys := { dirs := [], files := [] }

/-- File system where the noninclusive directory does not exist while
the exclusive directory holds one trace. -/
def fs4 : FileSys :=
  { dirs := ["outputs_latest/exclusive_no"]
    files := [⟨DIR_EXCLUSIVE, "trace1.txt", ["cumulative IPC: 1.5"]⟩] }

/-- C4 counterexample: `outputs/no_prefetcher` does not exist on fs4,
yet `plots_task2.py` raises nothing for it: the missing directory yields
a silent empty row set and the run proceeds. -/
theorem missing_dir_silent_empty_cex :
    isdir fs4 DIR_NONINCLUSIVE = false
    ∧ collect_for_dir fs4 DIR_NONINCLUSIVE "noninclusive" = []
    ∧ plots_task2_collect fs4 ≠ T2Outcome.systemExit := by
  refine ⟨by decide, by decide, by decide⟩

/-- C4 (amended): only `plot_exclusive` reports a missing directory as a
configuration error; `collect_for_dir` of `plots_task2.py` returns a
silent empty result for a directory holding no files (in particular a
nonexistent one), and that run aborts only when both directories
collected nothing. -/
theorem directory_error_handling :
    (∀ fs : FileSys, isdir fs BASELINE_DIR = false →
        generate_plot fs = GPOutcome.baselineDirNotFound)
    ∧ (∀ fs : FileSys, isdir fs BASELINE_DIR = true → isdir fs EXCLUSIVE_DIR = false →
        generate_plot fs = GPOutcome.exclusiveDirNotFound)
    ∧ (∀ (fs : FileSys) (d lbl : String), (∀ f ∈ fs.files, (f.dir == d) = false) →
        collect_for_dir fs d lbl = [])
    ∧ (∀ fs : FileSys, collect_for_dir fs DIR_EXCLUSIVE "exclusive" ≠ [] →
        plots_task2_collect fs = T2Outcome.proceeds (t2rows fs)) := by
  refine ⟨?_, ?_, ?_, ?_⟩
  · intro fs h; simp [generate_plot, h]
  · intro fs h1 h2; simp [generate_plot, h1, h2]
  · intro fs d lbl h
    have hiso : ∀ n, isfile fs d n = false := by
      intro n
      simp only [isfile, List.any_eq_false]
      intro f hf
      simp [h f hf]
    have hexp : expectedRows fs d lbl = [] := expectedRows_eq_nil fs d lbl (fun f _ => hiso f)
    have hglob : globTrace fs d = [] := by
      have hfil : fs.files.filter (fun f => f.dir == d && globMatchTrace f.name) = [] := by
        rw [List.filter_eq_nil_iff]
        intro f hf
        simp [h f hf]
      simp [globTrace, hfil]
    simp [collect_for_dir, hexp, globRows, hglob, sortRows]
  · intro fs h
    have hne : (collect_for_dir fs DIR_EXCLUSIVE "exclusive").isEmpty = false :=
      List.isEmpty_eq_false.mpr h
    simp [plots_task2_collect, hne]

/-- C4 witness: the directory handling at concrete file systems. -/
theorem directory_error_handling_witness :
    generate_plot fsEmpty = GPOutcome.baselineDirNotFound
    ∧ collect_for_dir fs4 DIR_NONINCLUSIVE "noninclusive" = []
    ∧ plots_task2_collect fs4 = T2Outcome.proceeds (t2rows fs4) :=
  ⟨directory_error_handling.1 fsEmpty (by decide),
   directory_error_handling.2.2.1 fs4 DIR_NONINCLUSIVE "noninclusive" (by decide),
   directory_error_handling.2.2.2 fs4 (by decide)⟩

/-- File system whose only trace files do not carry one of the expected
names; one of them has no parseable trace number. -/
def fsC5 : FileSys :=
  { dirs := ["outputs_latest/exclusive_no"]
    files :=
      [ ⟨DIR_EXCLUSIVE, "trace10.txt", ["cumulative IPC: 1.5"]⟩
      , ⟨DIR_EXCLUSIVE, "trace3b.txt", ["cumulative IPC: 2.5"]⟩ ] }

/-- C5 counterexample: `trace3b.txt` matches the wildcard but not the
numeric-suffix pattern; its row is NOT excluded from the table — it
stays with an undefined trace number, sorted after the parsed rows. -/
theorem unparsed_trace_retained_cex :
    (collect_for_dir fsC5 DIR_EXCLUSIVE "exclusive").map (fun r => r.trace) = [some 10, none]
    ∧ ([some 10, none] : List (Option ℕ)) ≠ [some 10] := by
  refine ⟨by decide, by decide⟩

/-- C5 (amended): collected rows are sorted ascending by the sort key
(parsed trace number, with unparseable rows keyed 999 and therefore
last), and in the wildcard fallback nothing is excluded: the collected
files are a permutation of the wildcard matches, parseable or not. -/
theorem aggregate_sorting_and_retention :
    (∀ (fs : FileSys) (d lbl : String), List.Sorted rowLe (collect_for_dir fs d lbl))
    ∧ (∀ (fs : FileSys) (d lbl : String),
        (∀ f ∈ TRACE_FILENAMES, isfile fs d f = false) →
        ((collect_for_dir fs d lbl).map (fun r => r.file)).Perm
          ((globTrace fs d).map (fun n => d ++ "/" ++ n))) := by
  constructor
  · intro fs d lbl
    exact List.sorted_insertionSort rowLe _
  · intro fs d lbl h
    have hexp := expectedRows_eq_nil fs d lbl h
    have hcol : collect_for_dir fs d lbl = List.insertionSort rowLe (globRows fs d lbl) := by
      simp [collect_for_dir, hexp, sortRows]
    rw [hcol]
    have hperm := (List.perm_insertionSort rowLe (globRows fs d lbl)).map (fun r => r.file)
    have heq : (globRows fs d lbl).map (fun r => r.file)
        = (globTrace fs d).map (fun n => d ++ "/" ++ n) := by
      rw [globRows, List.map_map]
      rfl
    rw [heq] at hperm
    exact hperm

/-- C5 witness: sortedness and retention at the concrete directory. -/
theorem aggregate_sorting_witness :
    List.Sorted rowLe (collect_for_dir fsC5 DIR_EXCLUSIVE "exclusive")
    ∧ ((collect_for_dir fsC5 DIR_EXCLUSIVE "exclusive").map (fun r => r.file)).Perm
        ((globTrace fsC5 DIR_EXCLUSIVE).map (fun n => DIR_EXCLUSIVE ++ "/" ++ n)) :=
  ⟨aggregate_sorting_and_retention.1 fsC5 DIR_EXCLUSIVE "exclusive",
   aggregate_sorting_and_retention.2 fsC5 DIR_EXCLUSIVE "exclusive" (by decide)⟩

/-- File system with one exclusive trace of IPC 1.234 and an existing
but empty noninclusive directory. -/
def fs6 : FileSys :=
  { dirs := ["outputs_latest/exclusive_no", "outputs/no_prefetcher"]
    files := [⟨DIR_EXCLUSIVE, "trace1.txt", ["cumulative IPC: 1.234"]⟩] }

/-- C6 counterexample: in the side-by-side IPC chart, the defined bar
1.234 is annotated "1.23" — two decimal places, not the three the claim
requires for IPC — and the undefined noninclusive bar receives no
annotation at all (blank), not the placeholder "-". -/
theorem side_by_side_label_cex :
    side_by_side_labels (t2rows fs6) (fun r => r.ipc) = [some "1.23", none]
    ∧ (some "1.23" : Option String) ≠ some "1.234"
    ∧ (none : Option String) ≠ some "-" := by
  refine ⟨by decide, by decide, by decide⟩

/-- C6 (amended): the summary table formats as the claim states ("-"
for missing, 3 decimals for IPC and speedup columns, 2 for MPKI
columns) and the speedup chart annotates with "-" or 3 decimals (never
blank); but the side-by-side charts annotate EVERY finite bar — IPC
included — with 2 decimals, and give an undefined bar no annotation at
all instead of "-". -/
theorem value_formatting_rules :
    (∀ col : String, format_val col PFloat.nan = "-")
    ∧ (∀ (col : String) (q : ℚ), strContains "ipc" col = true →
        strContains "speedup" col = false →
        format_val col (PFloat.val q) = fmtQ 3 q)
    ∧ (∀ (col : String) (q : ℚ), strContains "speedup" col = true →
        format_val col (PFloat.val q) = fmtQ 3 q)
    ∧ (∀ (col : String) (q : ℚ), strContains "ipc" col = false →
        strContains "speedup" col = false → strContains "mpki" col = true →
        format_val col (PFloat.val q) = fmtQ 2 q)
    ∧ (∀ rows : List Row, ∀ s ∈ speedup_labels rows, s ≠ "")
    ∧ sbs_bar_label PFloat.nan = none
    ∧ (∀ q : ℚ, sbs_bar_label (PFloat.val q) = some (fmtQ 2 q)) := by
  refine ⟨?_, ?_, ?_, ?_, ?_, rfl, ?_⟩
  · intro col; simp [format_val, PFloat.isNa]
  · intro col q h1 h2; simp [format_val, PFloat.isNa, h1, h2, PFloat.fmt]
  · intro col q h; simp [format_val, PFloat.isNa, h, PFloat.fmt]
  · intro col q h1 h2 h3; simp [format_val, PFloat.isNa, h1, h2, h3, PFloat.fmt]
  · intro rows s hs
    simp only [speedup_labels] at hs
    rcases List.mem_map.mp hs with ⟨v, _, hv⟩
    rw [← hv]
    exact speedup_label_ne_empty v
  · intro q; simp [sbs_bar_label, PFloat.isNa, PFloat.fmt]

/-- C6 witness: the formatting rules at concrete columns and values. -/
theorem value_formatting_witness :
    format_val "exclusive_ipc" (PFloat.val (1234 / 1000)) = fmtQ 3 (1234 / 1000)
    ∧ format_val "speedup_ipc" (PFloat.val (3 / 2)) = fmtQ 3 (3 / 2)
    ∧ format_val "exclusive_l1d_mpki" (PFloat.val (3 / 2)) = fmtQ 2 (3 / 2)
    ∧ "-" ≠ ""
    ∧ sbs_bar_label (PFloat.val (3 / 2)) = some (fmtQ 2 (3 / 2)) :=
  ⟨value_formatting_rules.2.1 "exclusive_ipc" (1234 / 1000) (by decide) (by decide),
   value_formatting_rules.2.2.1 "speedup_ipc" (3 / 2) (by decide),
   value_formatting_rules.2.2.2.1 "exclusive_l1d_mpki" (3 / 2) (by decide) (by decide) (by decide),
   value_formatting_rules.2.2.2.2.1 (t2rows fs6) "-" (by decide),
   value_formatting_rules.2.2.2.2.2.2 (3 / 2)⟩

/-- File system with both directories of `plot_exclusive` present but
holding no trace files. -/
def fsGP : FileSys := { dirs := [BASELINE_DIR, EXCLUSIVE_DIR], files := [] }

/-- C7: when none of the expected file names exists, the locator falls
back to the wildcard scan of the directory; when both directories
collect nothing the run aborts with `SystemExit`; and `plot_exclusive`
stops with its no-traces report when its baseline wildcard scan is
empty. -/
theorem locator_fallback_and_exit :
    (∀ (fs : FileSys) (d lbl : String),
        (∀ f ∈ TRACE_FILENAMES, isfile fs d f = false) →
        collect_for_dir fs d lbl = sortRows (globRows fs d lbl))
    ∧ (∀ fs : FileSys,
        collect_for_dir fs DIR_EXCLUSIVE "exclusive" = [] →
        collect_for_dir fs DIR_NONINCLUSIVE "noninclusive" = [] →
        plots_task2_collect fs = T2Outcome.systemExit)
    ∧ (∀ fs : FileSys, isdir fs BASELINE_DIR = true → isdir fs EXCLUSIVE_DIR = true →
        globTrace fs BASELINE_DIR = [] →
        generate_plot fs = GPOutcome.noTraces) := by
  refine ⟨?_, ?_, ?_⟩
  · intro fs d lbl h
    have hexp := expectedRows_eq_nil fs d lbl h
    simp [collect_for_dir, hexp]
  · intro fs h1 h2
    simp [plots_task2_collect, h1, h2]
  · intro fs h1 h2 h3
    simp [generate_plot, h1, h2, h3]

/-- C7 witness: fallback, abort and no-traces at concrete file
systems. -/
theorem locator_fallback_witness :
    collect_for_dir fsC5 DIR_EXCLUSIVE "exclusive"
        = sortRows (globRows fsC5 DIR_EXCLUSIVE "exclusive")
    ∧ plots_task2_collect fsEmpty = T2Outcome.systemExit
    ∧ generate_plot fsGP = GPOutcome.noTraces :=
  ⟨locator_fallback_and_exit.1 fsC5 DIR_EXCLUSIVE "exclusive" (by decide),
   locator_fallback_and_exit.2.1 fsEmpty (by decide) (by decide),
   locator_fallback_and_exit.2.2 fsGP (by decide) (by decide) (by decide)⟩

/-- File system with an existing empty noninclusive directory and one
exclusive trace. -/
def fs8 : FileSys :=
  { dirs := ["outputs_latest/exclusive_no", "outputs/no_prefetcher"]
    files := [⟨DIR_EXCLUSIVE, "trace1.txt", ["cumulative IPC: 1.5"]⟩] }

/-- C8 counterexample: the noninclusive (baseline) directory exists and
is empty while the comparison side has one trace, yet the run reports
nothing and still renders the speedup chart — its single bar annotated
"-". -/
theorem empty_baseline_proceeds_cex :
    isdir fs8 DIR_NONINCLUSIVE = true
    ∧ collect_for_dir fs8 DIR_NONINCLUSIVE "noninclusive" = []
    ∧ plots_task2_collect fs8 ≠ T2Outcome.systemExit
    ∧ speedup_labels (t2rows fs8) = ["-"] := by
  refine ⟨by decide, by decide, by decide, by decide⟩

/-- C8 (amended): when the noninclusive side collects nothing and the
exclusive side collects something, `plots_task2.py` proceeds without any
report and produces the speedup artifact with every bar annotated "-";
`plot_exclusive`, by contrast, does report and produce nothing when its
baseline wildcard scan is empty. -/
theorem empty_baseline_behavior :
    (∀ fs : FileSys,
        collect_for_dir fs DIR_NONINCLUSIVE "noninclusive" = [] →
        collect_for_dir fs DIR_EXCLUSIVE "exclusive" ≠ [] →
        plots_task2_collect fs = T2Outcome.proceeds (t2rows fs)
          ∧ ∀ s ∈ speedup_labels (t2rows fs), s = "-")
    ∧ (∀ fs : FileSys, isdir fs BASELINE_DIR = true → isdir fs EXCLUSIVE_DIR = true →
        globTrace fs BASELINE_DIR = [] →
        generate_plot fs = GPOutcome.noTraces) := by
  constructor
  · intro fs hni hex
    constructor
    · have hne : (collect_for_dir fs DIR_EXCLUSIVE "exclusive").isEmpty = false :=
        List.isEmpty_eq_false.mpr hex
      simp [plots_task2_collect, hne]
    · intro s hs
      have hrows : t2rows fs = collect_for_dir fs DIR_EXCLUSIVE "exclusive" := by
        rw [t2rows, hni, List.append_nil]
      simp only [speedup_labels] at hs
      rcases List.mem_map.mp hs with ⟨v, hv, hlab⟩
      simp only [speedup_series] at hv
      rcases List.mem_map.mp hv with ⟨t, _, hft⟩
      have hb : pivotVal (t2rows fs) (fun r => r.ipc) t "noninclusive" = PFloat.nan := by
        apply pivotVal_policy_missing
        intro r hr
        have hp : r.policy = "exclusive" := by
          rw [hrows] at hr
          exact mem_collect_policy fs DIR_EXCLUSIVE "exclusive" r hr
        rw [hp]
        decide
      have hv2 : v = PFloat.nan := by
        rw [← hft, hb, chart_speedup_nan_right]
      rw [hv2] at hlab
      simpa [PFloat.isNa] using hlab.symm
  · intro fs h1 h2 h3
    simp [generate_plot, h1, h2, h3]

/-- C8 witness: the behavior at the concrete empty-baseline file
systems. -/
theorem empty_baseline_behavior_witness :
    (plots_task2_collect fs8 = T2Outcome.proceeds (t2rows fs8)
      ∧ ∀ s ∈ speedup_labels (t2rows fs8), s = "-")
    ∧ generate_plot fsGP = GPOutcome.noTraces :=
  ⟨empty_baseline_behavior.1 fs8 (by decide) (by decide),
   empty_baseline_behavior.2 fsGP (by decide) (by decide) (by decide)⟩
